import Mathlib

/-!
Verification of the pricing calculator in `src/v2/script.js`
(`initPricingCalculator` / `calculate`, lines 241-349).

The JavaScript `calculate` reads the selected keys from form inputs, looks
them up in five inline rate-table object literals, and writes five display
values.  We embed it shallowly:

* rate tables become association lists `List (String × ℚ)`;
* a JavaScript object lookup `table[key]` becomes `List.lookup`, returning
  `none` for an absent key (JavaScript yields `undefined`);
* JavaScript arithmetic on a possibly-`undefined` value produces `NaN`,
  which then propagates through every further operation; we model the
  numeric state as `Option ℚ` with `none` playing the role of `NaN`
  (`jsAdd`, `jsSub`, `jsMul` are `NaN`-propagating);
* `Math.round x` is `⌊x + 1/2⌋` (round half toward positive infinity),
  and `Math.round NaN = NaN`;
* the checkbox states become a function `String → Bool`; the source sums
  add-ons by iterating over the keys of `addOnPrices`, so only keys of
  that table can contribute;
* the five display writes, together with the intermediate quantities the
  specification names, are collected in a `PriceQuote` record.

Floating-point is modelled by exact rationals: the literals of the source
`0.10`, `0.05`, `0.03` denote the mathematical rates the spec reasons
with.
-/

/-- The five rate tables of `initPricingCalculator` (script.js 263-301). -/
structure RateTables where
  basePrices : List (String × ℚ)
  bathroomPrices : List (String × ℚ)
  serviceAdjustments : List (String × ℚ)
  frequencyDiscounts : List (String × ℚ)
  addOnPrices : List (String × ℚ)

/-- The inline rate-table literals of the source (script.js 263-301). -/
def builtinRates : RateTables :=
  { basePrices :=
      [("studio", 69), ("1bed", 79), ("2bed", 89),
       ("3bed", 119), ("4bed", 149), ("5bed", 179)]
    bathroomPrices :=
      [("1", 0), ("1.5", 15), ("2", 30), ("2.5", 45), ("3", 60), ("4", 90)]
    serviceAdjustments :=
      [("standard", 0), ("deep", 80), ("move", 180)]
    frequencyDiscounts :=
      [("one-time", 0), ("weekly", 1/10), ("biweekly", 5/100), ("monthly", 3/100)]
    addOnPrices :=
      [("steamSanitize", 35), ("laundry", 25), ("windows", 30),
       ("fridge", 25), ("pets", 15), ("cabinets", 20)] }

/-- The form state `calculate` reads: the four selected keys and, for each
add-on key, whether its checkbox is checked. -/
structure CalcInputs where
  propertyType : String
  bathrooms : String
  serviceType : String
  frequency : String
  checked : String → Bool

/-- JavaScript `+` when either operand may be `undefined`/`NaN` (`none`). -/
def jsAdd : Option ℚ → Option ℚ → Option ℚ
  | some a, some b => some (a + b)
  | _, _ => none

/-- JavaScript `-` when either operand may be `undefined`/`NaN` (`none`). -/
def jsSub : Option ℚ → Option ℚ → Option ℚ
  | some a, some b => some (a - b)
  | _, _ => none

/-- JavaScript `*` when either operand may be `undefined`/`NaN` (`none`). -/
def jsMul : Option ℚ → Option ℚ → Option ℚ
  | some a, some b => some (a * b)
  | _, _ => none

/-- JavaScript rounding `Math.round`: round to the nearest integer, halves toward `+∞`. -/
def mathRound (q : ℚ) : ℤ := ⌊q + 1/2⌋

/-- JavaScript `Math.round` applied to a possibly-`NaN` value (`Math.round NaN = NaN`). -/
def jsRound : Option ℚ → Option ℤ
  | some a => some (mathRound a)
  | none => none

/-- The add-on accumulation of script.js 311-316:
`Object.keys(addOnPrices).forEach(key => if inputs[key].checked then addOnsTotal += addOnPrices[key])`. -/
def addOnsTotalOf (prices : List (String × ℚ)) (checked : String → Bool) : ℚ :=
  prices.foldl (fun acc kv => if checked kv.1 then acc + kv.2 else acc) 0

/-- The values `calculate` computes: the five display writes
(script.js 331-336) plus the named intermediate quantities. -/
structure PriceQuote where
  basePrice : Option ℚ
  serviceAdjustment : Option ℚ
  subtotalBeforeAddOns : Option ℚ
  discountAmount : Option ℚ
  addOnsTotal : ℚ
  rawTotal : Option ℚ
  discountDisplay : Option ℤ
  total : Option ℤ
  deriving DecidableEq

/-- Shallow embedding of `calculate` (script.js 303-337).  The `let`s
mirror the successive states of the `total` variable of the source and its
other locals; the record fields mirror the display writes
(`total` and `discountDisplay` rounded, the rest raw). -/
def calculate (rates : RateTables) (inputs : CalcInputs) : PriceQuote :=
  let total0 := rates.basePrices.lookup inputs.propertyType
  let total1 := jsAdd total0 (rates.bathroomPrices.lookup inputs.bathrooms)
  let serviceAdj := rates.serviceAdjustments.lookup inputs.serviceType
  let freqDiscount := rates.frequencyDiscounts.lookup inputs.frequency
  let addOnsTotal := addOnsTotalOf rates.addOnPrices inputs.checked
  let total2 := jsAdd total1 serviceAdj
  let discountable := total2
  let discount := jsMul discountable freqDiscount
  let total3 := jsAdd total2 (some addOnsTotal)
  let total4 := jsSub total3 discount
  { basePrice := jsAdd (rates.basePrices.lookup inputs.propertyType)
      (rates.bathroomPrices.lookup inputs.bathrooms)
    serviceAdjustment := serviceAdj
    subtotalBeforeAddOns := total2
    discountAmount := discount
    addOnsTotal := addOnsTotal
    rawTotal := total4
    discountDisplay := jsRound discount
    total := jsRound total4 }

/-- A configuration is valid when its four selection keys all occur in the
corresponding rate tables. -/
def validConfig (rates : RateTables) (inputs : CalcInputs) : Bool :=
  (rates.basePrices.lookup inputs.propertyType).isSome &&
  (rates.bathroomPrices.lookup inputs.bathrooms).isSome &&
  (rates.serviceAdjustments.lookup inputs.serviceType).isSome &&
  (rates.frequencyDiscounts.lookup inputs.frequency).isSome

/-- Checking one more add-on box. -/
def addKey (a : String) (c : String → Bool) : String → Bool :=
  fun k => k == a || c k

/-- Scenario B of the test list of the spec: 2-bedroom, 2 bathrooms, deep
cleaning, weekly, with windows and pets add-ons. -/
def scenarioB : CalcInputs :=
  { propertyType := "2bed", bathrooms := "2", serviceType := "deep",
    frequency := "weekly",
    checked := fun k => k == "windows" || k == "pets" }

/-- Scenario C of the test list of the spec: studio, 1 bathroom, move-out
cleaning, monthly, with the fridge add-on. -/
def scenarioC : CalcInputs :=
  { propertyType := "studio", bathrooms := "1", serviceType := "move",
    frequency := "monthly",
    checked := fun k => k == "fridge" }

/-- A configuration whose property type is absent from every rate table. -/
def mansionConfig : CalcInputs :=
  { propertyType := "mansion", bathrooms := "1", serviceType := "standard",
    frequency := "one-time",
    checked := fun _ => false }

/-! ### Helper lemmas -/

/-- When all four lookups succeed, `calculate` is given by the closed-form
arithmetic of the algorithm. -/
theorem calculate_eq (rates : RateTables) (i : CalcInputs) (b bt sv fr : ℚ)
    (hb : rates.basePrices.lookup i.propertyType = some b)
    (hbt : rates.bathroomPrices.lookup i.bathrooms = some bt)
    (hsv : rates.serviceAdjustments.lookup i.serviceType = some sv)
    (hfr : rates.frequencyDiscounts.lookup i.frequency = some fr) :
    calculate rates i =
    { basePrice := some (b + bt)
      serviceAdjustment := some sv
      subtotalBeforeAddOns := some (b + bt + sv)
      discountAmount := some ((b + bt + sv) * fr)
      addOnsTotal := addOnsTotalOf rates.addOnPrices i.checked
      rawTotal := some (b + bt + sv + addOnsTotalOf rates.addOnPrices i.checked
        - (b + bt + sv) * fr)
      discountDisplay := some (mathRound ((b + bt + sv) * fr))
      total := some (mathRound (b + bt + sv + addOnsTotalOf rates.addOnPrices i.checked
        - (b + bt + sv) * fr)) } := by
  simp only [calculate, hb, hbt, hsv, hfr, jsAdd, jsSub, jsMul, jsRound]

/-- A successful `validConfig` check yields the four looked-up values. -/
theorem validConfig_elim (rates : RateTables) (i : CalcInputs)
    (hv : validConfig rates i = true) :
    ∃ b bt sv fr : ℚ,
      rates.basePrices.lookup i.propertyType = some b ∧
      rates.bathroomPrices.lookup i.bathrooms = some bt ∧
      rates.serviceAdjustments.lookup i.serviceType = some sv ∧
      rates.frequencyDiscounts.lookup i.frequency = some fr := by
  simp only [validConfig, Bool.and_eq_true, Option.isSome_iff_exists] at hv
  obtain ⟨⟨⟨⟨b, hb⟩, bt, hbt⟩, sv, hsv⟩, fr, hfr⟩ := hv
  exact ⟨b, bt, sv, fr, hb, hbt, hsv, hfr⟩

/-- A successful association-list lookup locates a member of the list. -/
theorem lookup_mem {l : List (String × ℚ)} {k : String} {v : ℚ}
    (h : l.lookup k = some v) : (k, v) ∈ l := by
  induction l with
  | nil => simp [List.lookup] at h
  | cons kv t ih =>
    rw [List.lookup] at h
    rcases hkv : (k == kv.1) with _ | _
    · simp [hkv] at h
      exact List.mem_cons_of_mem _ (ih h)
    · simp [hkv] at h
      have hk : k = kv.1 := by simpa using hkv
      exact List.mem_cons.mpr (Or.inl (by rw [hk, ← h]))

/-- The add-on fold started from `s` is `s` plus the fold started from `0`. -/
theorem foldl_addOns_shift (l : List (String × ℚ)) (c : String → Bool) (s : ℚ) :
    l.foldl (fun acc kv => if c kv.1 then acc + kv.2 else acc) s
      = s + addOnsTotalOf l c := by
  induction l generalizing s with
  | nil => simp [addOnsTotalOf]
  | cons kv t ih =>
    simp only [addOnsTotalOf, List.foldl]
    cases h : c kv.1
    · simp only [Bool.false_eq_true, if_false]
      rw [ih, ih]
      ring
    · simp only [if_true]
      rw [ih, ih]
      ring

/-- Unfolding the add-on fold one entry at a time. -/
theorem addOnsTotalOf_cons (kv : String × ℚ) (l : List (String × ℚ))
    (c : String → Bool) :
    addOnsTotalOf (kv :: l) c = (if c kv.1 then kv.2 else 0) + addOnsTotalOf l c := by
  simp only [addOnsTotalOf, List.foldl]
  cases h : c kv.1 <;> simp [h, foldl_addOns_shift]

/-- The add-on fold computes the sum of the prices of the checked keys. -/
theorem addOnsTotalOf_eq_sum (l : List (String × ℚ)) (c : String → Bool) :
    addOnsTotalOf l c = ((l.filter (fun kv => c kv.1)).map Prod.snd).sum := by
  induction l with
  | nil => simp [addOnsTotalOf]
  | cons kv t ih =>
    rw [addOnsTotalOf_cons, List.filter_cons]
    cases h : c kv.1 <;> simp [h, ih]

/-- The add-on fold over a table of non-negative prices is non-negative. -/
theorem addOnsTotalOf_nonneg (l : List (String × ℚ)) (c : String → Bool)
    (h : ∀ kv ∈ l, 0 ≤ kv.2) : 0 ≤ addOnsTotalOf l c := by
  induction l with
  | nil => simp [addOnsTotalOf]
  | cons kv t ih =>
    rw [addOnsTotalOf_cons]
    have h1 : 0 ≤ kv.2 := h kv (List.mem_cons_self _ _)
    have h2 : 0 ≤ addOnsTotalOf t c := ih fun x hx => h x (List.mem_cons_of_mem _ hx)
    cases hc : c kv.1 <;> simp [hc] <;> linarith

/-- Checking one additional, previously unchecked, box adds exactly the
total table price of that key to the add-on fold. -/
theorem addOnsTotalOf_addKey (l : List (String × ℚ)) (c : String → Bool)
    (a : String) (h : c a = false) :
    addOnsTotalOf l (addKey a c)
      = addOnsTotalOf l c + ((l.filter (fun kv => kv.1 == a)).map Prod.snd).sum := by
  induction l with
  | nil => simp [addOnsTotalOf]
  | cons kv t ih =>
    rw [addOnsTotalOf_cons, addOnsTotalOf_cons, List.filter_cons]
    rcases hk : (kv.1 == a) with _ | _
    · have : addKey a c kv.1 = c kv.1 := by simp [addKey, hk]
      rw [this, ih]
      simp [hk]
      ring
    · have hka : kv.1 = a := by simpa using hk
      have h1 : addKey a c kv.1 = true := by simp [addKey, hk]
      have h2 : c kv.1 = false := by rw [hka]; exact h
      rw [h1, h2, ih]
      simp [hk]
      ring

/-- A fold over integral prices yields an integer. -/
theorem addOnsTotalOf_int (l : List (String × ℚ)) (c : String → Bool)
    (h : ∀ kv ∈ l, ∃ z : ℤ, kv.2 = (z : ℚ)) :
    ∃ z : ℤ, addOnsTotalOf l c = (z : ℚ) := by
  induction l with
  | nil => exact ⟨0, by simp [addOnsTotalOf]⟩
  | cons kv t ih =>
    obtain ⟨z1, hz1⟩ := h kv (List.mem_cons_self _ _)
    obtain ⟨z2, hz2⟩ := ih fun x hx => h x (List.mem_cons_of_mem _ hx)
    rw [addOnsTotalOf_cons]
    cases hc : c kv.1
    · exact ⟨z2, by simp [hz2]⟩
    · exact ⟨z1 + z2, by simp only [if_true, hz1, hz2]; push_cast; ring⟩

/-- Rounding commutes with adding an integer. -/
theorem mathRound_add_int (q : ℚ) (z : ℤ) :
    mathRound (q + (z : ℚ)) = mathRound q + z := by
  unfold mathRound
  rw [add_right_comm, Int.floor_add_int]

/-- Rounding a non-negative value is non-negative. -/
theorem mathRound_nonneg (q : ℚ) (h : 0 ≤ q) : 0 ≤ mathRound q := by
  unfold mathRound
  exact Int.le_floor.mpr (by push_cast; linarith)

/-- Rounding an integer minus a value splits off the integer. -/
theorem mathRound_intCast_sub (n : ℤ) (d : ℚ) :
    mathRound ((n : ℚ) - d) = n + mathRound (-d) := by
  unfold mathRound
  rw [sub_eq_add_neg, add_assoc, Int.floor_int_add]

/-- The two roundings `Math.round d` and `Math.round (-d)` cancel up to one. -/
theorem mathRound_add_mathRound_neg (d : ℚ) :
    mathRound d + mathRound (-d) = 0 ∨ mathRound d + mathRound (-d) = 1 := by
  unfold mathRound
  have h1 : (⌊-d + 1/2⌋ : ℤ) = -⌈d + 1/2⌉ + 1 := by
    have : -d + 1/2 = -(d + 1/2) + 1 := by ring
    rw [this, Int.floor_add_one, Int.floor_neg]
  have h2 : ⌊d + 1/2⌋ ≤ ⌈d + 1/2⌉ := Int.floor_le_ceil _
  have h3 : ⌈d + 1/2⌉ ≤ ⌊d + 1/2⌋ + 1 := Int.ceil_le_floor_add_one _
  omega

/-- Every built-in base price is an integer. -/
theorem builtin_basePrices_int :
    ∀ kv ∈ builtinRates.basePrices, ∃ z : ℤ, kv.2 = (z : ℚ) := by
  intro kv hm
  simp [builtinRates] at hm
  rcases hm with rfl | rfl | rfl | rfl | rfl | rfl
  · exact ⟨69, by norm_num⟩
  · exact ⟨79, by norm_num⟩
  · exact ⟨89, by norm_num⟩
  · exact ⟨119, by norm_num⟩
  · exact ⟨149, by norm_num⟩
  · exact ⟨179, by norm_num⟩

/-- Every built-in bathroom surcharge is an integer. -/
theorem builtin_bathroomPrices_int :
    ∀ kv ∈ builtinRates.bathroomPrices, ∃ z : ℤ, kv.2 = (z : ℚ) := by
  intro kv hm
  simp [builtinRates] at hm
  rcases hm with rfl | rfl | rfl | rfl | rfl | rfl
  · exact ⟨0, by norm_num⟩
  · exact ⟨15, by norm_num⟩
  · exact ⟨30, by norm_num⟩
  · exact ⟨45, by norm_num⟩
  · exact ⟨60, by norm_num⟩
  · exact ⟨90, by norm_num⟩

/-- Every built-in service adjustment is an integer. -/
theorem builtin_serviceAdjustments_int :
    ∀ kv ∈ builtinRates.serviceAdjustments, ∃ z : ℤ, kv.2 = (z : ℚ) := by
  intro kv hm
  simp [builtinRates] at hm
  rcases hm with rfl | rfl | rfl
  · exact ⟨0, by norm_num⟩
  · exact ⟨80, by norm_num⟩
  · exact ⟨180, by norm_num⟩

/-- Every built-in add-on price is an integer. -/
theorem builtin_addOnPrices_int :
    ∀ kv ∈ builtinRates.addOnPrices, ∃ z : ℤ, kv.2 = (z : ℚ) := by
  intro kv hm
  simp [builtinRates] at hm
  rcases hm with rfl | rfl | rfl | rfl | rfl | rfl
  · exact ⟨35, by norm_num⟩
  · exact ⟨25, by norm_num⟩
  · exact ⟨30, by norm_num⟩
  · exact ⟨25, by norm_num⟩
  · exact ⟨15, by norm_num⟩
  · exact ⟨20, by norm_num⟩

/-! ### Claims -/

/-- C1: for every configuration whose four selection keys exist in the rate
tables, the quote satisfies the defining equations of the algorithm:
`basePrice` is the property-type base plus the bathroom surcharge,
`subtotalBeforeAddOns` is `basePrice` plus the service adjustment,
`discountAmount` is `subtotalBeforeAddOns` times the frequency rate (the
discount base excludes add-ons), `addOnsTotal` is the sum of the selected
selected add-on prices, and `rawTotal` is
`subtotalBeforeAddOns + addOnsTotal - discountAmount`. -/
theorem calculate_defining_equations (rates : RateTables) (i : CalcInputs)
    (b bt sv fr : ℚ)
    (hb : rates.basePrices.lookup i.propertyType = some b)
    (hbt : rates.bathroomPrices.lookup i.bathrooms = some bt)
    (hsv : rates.serviceAdjustments.lookup i.serviceType = some sv)
    (hfr : rates.frequencyDiscounts.lookup i.frequency = some fr) :
    (calculate rates i).basePrice = some (b + bt) ∧
    (calculate rates i).serviceAdjustment = some sv ∧
    (calculate rates i).subtotalBeforeAddOns = some ((b + bt) + sv) ∧
    (calculate rates i).discountAmount = some (((b + bt) + sv) * fr) ∧
    (calculate rates i).addOnsTotal
      = ((rates.addOnPrices.filter (fun kv => i.checked kv.1)).map Prod.snd).sum ∧
    (calculate rates i).rawTotal
      = some (((b + bt) + sv) + (calculate rates i).addOnsTotal
          - ((b + bt) + sv) * fr) := by
  rw [calculate_eq rates i b bt sv fr hb hbt hsv hfr]
  refine ⟨rfl, rfl, by ring_nf, by ring_nf, addOnsTotalOf_eq_sum _ _, by ring_nf⟩

/-- Witness for C1: the defining equations at the concrete scenario-B
configuration. -/
theorem calculate_defining_equations_witness :
    (calculate builtinRates scenarioB).basePrice = some (89 + 30) ∧
    (calculate builtinRates scenarioB).serviceAdjustment = some 80 ∧
    (calculate builtinRates scenarioB).subtotalBeforeAddOns = some ((89 + 30) + 80) ∧
    (calculate builtinRates scenarioB).discountAmount
      = some (((89 + 30) + 80) * (1/10)) ∧
    (calculate builtinRates scenarioB).addOnsTotal
      = ((builtinRates.addOnPrices.filter
            (fun kv => scenarioB.checked kv.1)).map Prod.snd).sum ∧
    (calculate builtinRates scenarioB).rawTotal
      = some (((89 + 30) + 80) + (calculate builtinRates scenarioB).addOnsTotal
          - ((89 + 30) + 80) * (1/10)) :=
  calculate_defining_equations builtinRates scenarioB 89 30 80 (1/10) rfl rfl rfl rfl

/-- C3: for every valid configuration the reported `total` is the unrounded
`rawTotal` rounded once, half-up (`⌊· + 1/2⌋`); the reported discount is
rounded to the nearest integer independently; and `basePrice`,
`serviceAdjustment` and `addOnsTotal` are reported unrounded. -/
theorem calculate_rounding_policy (rates : RateTables) (i : CalcInputs)
    (b bt sv fr : ℚ)
    (hb : rates.basePrices.lookup i.propertyType = some b)
    (hbt : rates.bathroomPrices.lookup i.bathrooms = some bt)
    (hsv : rates.serviceAdjustments.lookup i.serviceType = some sv)
    (hfr : rates.frequencyDiscounts.lookup i.frequency = some fr) :
    (calculate rates i).rawTotal
      = some (b + bt + sv + addOnsTotalOf rates.addOnPrices i.checked
          - (b + bt + sv) * fr) ∧
    (calculate rates i).total
      = some ⌊(b + bt + sv + addOnsTotalOf rates.addOnPrices i.checked
          - (b + bt + sv) * fr) + 1/2⌋ ∧
    (calculate rates i).discountDisplay = some ⌊(b + bt + sv) * fr + 1/2⌋ ∧
    (calculate rates i).basePrice = some (b + bt) ∧
    (calculate rates i).serviceAdjustment = some sv ∧
    (calculate rates i).addOnsTotal = addOnsTotalOf rates.addOnPrices i.checked := by
  rw [calculate_eq rates i b bt sv fr hb hbt hsv hfr]
  exact ⟨rfl, rfl, rfl, rfl, rfl, rfl⟩

/-- Witness for C3: the rounding policy at the concrete scenario-B
configuration. -/
theorem calculate_rounding_policy_witness :
    (calculate builtinRates scenarioB).rawTotal
      = some (89 + 30 + 80 + addOnsTotalOf builtinRates.addOnPrices scenarioB.checked
          - (89 + 30 + 80) * (1/10)) ∧
    (calculate builtinRates scenarioB).total
      = some ⌊(89 + 30 + 80 + addOnsTotalOf builtinRates.addOnPrices scenarioB.checked
          - (89 + 30 + 80) * (1/10)) + 1/2⌋ ∧
    (calculate builtinRates scenarioB).discountDisplay
      = some ⌊((89 : ℚ) + 30 + 80) * (1/10) + 1/2⌋ ∧
    (calculate builtinRates scenarioB).basePrice = some (89 + 30) ∧
    (calculate builtinRates scenarioB).serviceAdjustment = some 80 ∧
    (calculate builtinRates scenarioB).addOnsTotal
      = addOnsTotalOf builtinRates.addOnPrices scenarioB.checked :=
  calculate_rounding_policy builtinRates scenarioB 89 30 80 (1/10) rfl rfl rfl rfl

/-- C4: two configurations that agree on the four selection keys and differ
only in the chosen add-ons report identical raw and displayed discount. -/
theorem calculate_discount_independent_of_addons (rates : RateTables)
    (i j : CalcInputs)
    (h1 : i.propertyType = j.propertyType) (h2 : i.bathrooms = j.bathrooms)
    (h3 : i.serviceType = j.serviceType) (h4 : i.frequency = j.frequency) :
    (calculate rates i).discountAmount = (calculate rates j).discountAmount ∧
    (calculate rates i).discountDisplay = (calculate rates j).discountDisplay := by
  unfold calculate
  rw [h1, h2, h3, h4]
  exact ⟨rfl, rfl⟩

/-- Witness for C4: scenario B and its add-on-free variant report the same
discount. -/
theorem calculate_discount_independent_of_addons_witness :
    (calculate builtinRates scenarioB).discountAmount
      = (calculate builtinRates { scenarioB with checked := fun _ => false }).discountAmount ∧
    (calculate builtinRates scenarioB).discountDisplay
      = (calculate builtinRates { scenarioB with checked := fun _ => false }).discountDisplay :=
  calculate_discount_independent_of_addons builtinRates scenarioB
    { scenarioB with checked := fun _ => false } rfl rfl rfl rfl

/-- C9: the engine is deterministic: identical rate tables and identical
configurations produce identical quotes. -/
theorem calculate_deterministic (r1 r2 : RateTables) (i1 i2 : CalcInputs)
    (hr : r1 = r2) (hi : i1 = i2) : calculate r1 i1 = calculate r2 i2 := by
  rw [hr, hi]

/-- Witness for C9: determinism at the concrete scenario-B input. -/
theorem calculate_deterministic_witness :
    calculate builtinRates scenarioB = calculate builtinRates scenarioB :=
  calculate_deterministic builtinRates builtinRates scenarioB scenarioB rfl rfl

/-- C6: scenario B (2bed, 2 bathrooms, deep, weekly, windows + pets) yields
subtotal 199, discount 19.9, add-ons 45, raw total 224.1, total 224. -/
theorem calculate_scenario_b :
    (calculate builtinRates scenarioB).subtotalBeforeAddOns = some 199 ∧
    (calculate builtinRates scenarioB).discountAmount = some (19.9 : ℚ) ∧
    (calculate builtinRates scenarioB).addOnsTotal = 45 ∧
    (calculate builtinRates scenarioB).rawTotal = some (224.1 : ℚ) ∧
    (calculate builtinRates scenarioB).total = some 224 := by
  have hA : addOnsTotalOf builtinRates.addOnPrices scenarioB.checked = 45 := by
    simp [addOnsTotalOf, builtinRates, scenarioB]
    norm_num
  rw [calculate_eq builtinRates scenarioB 89 30 80 (1/10) rfl rfl rfl rfl]
  simp only [hA, mathRound]
  norm_num

/-- C7: scenario C (studio, 1 bathroom, move-out, monthly, fridge) yields
subtotal 249, discount 7.47, add-ons 25, raw total 266.53, total 267. -/
theorem calculate_scenario_c :
    (calculate builtinRates scenarioC).subtotalBeforeAddOns = some 249 ∧
    (calculate builtinRates scenarioC).discountAmount = some (7.47 : ℚ) ∧
    (calculate builtinRates scenarioC).addOnsTotal = 25 ∧
    (calculate builtinRates scenarioC).rawTotal = some (266.53 : ℚ) ∧
    (calculate builtinRates scenarioC).total = some 267 := by
  have hA : addOnsTotalOf builtinRates.addOnPrices scenarioC.checked = 25 := by
    simp [addOnsTotalOf, builtinRates, scenarioC]
  rw [calculate_eq builtinRates scenarioC 69 0 180 (3/100) rfl rfl rfl rfl]
  simp only [hA, mathRound]
  norm_num

/-- Counterexample for C2: with the unknown property type `"mansion"` the
source raises no error at all: `calculate` completes normally and the
undefined lookup propagates as `NaN` (`none`) into the displayed total,
base price and discount.  No value of type `PriceQuote` carries any
error or offending-field information. -/
theorem calculate_mansion_no_error :
    (calculate builtinRates mansionConfig).total = none ∧
    (calculate builtinRates mansionConfig).basePrice = none ∧
    (calculate builtinRates mansionConfig).discountDisplay = none ∧
    (calculate builtinRates mansionConfig).addOnsTotal = 0 := by
  have hb : builtinRates.basePrices.lookup mansionConfig.propertyType = none := rfl
  unfold calculate
  rw [hb]
  refine ⟨rfl, rfl, rfl, ?_⟩
  simp [addOnsTotalOf, builtinRates, mansionConfig]

/-- C2 as amended: a configuration with a key absent from the corresponding
rate table produces no numeric quote: the `NaN` (`none`) from the failed
lookup propagates to the displayed total and discount, so the engine does
not substitute a default or silently treat the missing entry as zero — but
it raises no `InvalidConfiguration` error either. -/
theorem calculate_missing_key_total_nan (rates : RateTables) (i : CalcInputs)
    (h : validConfig rates i = false) :
    (calculate rates i).total = none ∧
    (calculate rates i).discountDisplay = none := by
  unfold calculate
  rcases hb : rates.basePrices.lookup i.propertyType with _ | b <;>
    rcases hbt : rates.bathroomPrices.lookup i.bathrooms with _ | bt <;>
      rcases hsv : rates.serviceAdjustments.lookup i.serviceType with _ | sv <;>
        rcases hfr : rates.frequencyDiscounts.lookup i.frequency with _ | fr <;>
          simp_all [validConfig, jsAdd, jsSub, jsMul, jsRound]

/-- Witness for the amended C2: the `"mansion"` configuration is invalid and
its total and discount are `NaN`. -/
theorem calculate_missing_key_total_nan_witness :
    validConfig builtinRates mansionConfig = false ∧
    ((calculate builtinRates mansionConfig).total = none ∧
     (calculate builtinRates mansionConfig).discountDisplay = none) :=
  ⟨rfl, calculate_missing_key_total_nan builtinRates mansionConfig rfl⟩

/-- C8: when every rate-table entry is non-negative and every frequency
discount rate lies in `[0, 1)`, the total of any valid configuration is a
defined, non-negative integer. -/
theorem calculate_total_nonneg (rates : RateTables) (i : CalcInputs)
    (hbase : ∀ kv ∈ rates.basePrices, 0 ≤ kv.2)
    (hbath : ∀ kv ∈ rates.bathroomPrices, 0 ≤ kv.2)
    (hsvc : ∀ kv ∈ rates.serviceAdjustments, 0 ≤ kv.2)
    (haddon : ∀ kv ∈ rates.addOnPrices, 0 ≤ kv.2)
    (hfreq : ∀ kv ∈ rates.frequencyDiscounts, 0 ≤ kv.2 ∧ kv.2 < 1)
    (hv : validConfig rates i = true) :
    ∃ t : ℤ, (calculate rates i).total = some t ∧ 0 ≤ t := by
  obtain ⟨b, bt, sv, fr, hb, hbt, hsv, hfr⟩ := validConfig_elim rates i hv
  rw [calculate_eq rates i b bt sv fr hb hbt hsv hfr]
  have h1 : 0 ≤ b := hbase _ (lookup_mem hb)
  have h2 : 0 ≤ bt := hbath _ (lookup_mem hbt)
  have h3 : 0 ≤ sv := hsvc _ (lookup_mem hsv)
  obtain ⟨h4, h5⟩ := hfreq _ (lookup_mem hfr)
  have hA : 0 ≤ addOnsTotalOf rates.addOnPrices i.checked :=
    addOnsTotalOf_nonneg _ _ haddon
  refine ⟨_, rfl, mathRound_nonneg _ ?_⟩
  nlinarith [mul_nonneg (by linarith : (0:ℚ) ≤ b + bt + sv)
    (by linarith : (0:ℚ) ≤ 1 - fr)]

/-- Witness for C8: the built-in tables satisfy the bounds and scenario B
has a defined non-negative total. -/
theorem calculate_total_nonneg_witness :
    validConfig builtinRates scenarioB = true ∧
    ∃ t : ℤ, (calculate builtinRates scenarioB).total = some t ∧ 0 ≤ t := by
  refine ⟨rfl, calculate_total_nonneg builtinRates scenarioB ?_ ?_ ?_ ?_ ?_ rfl⟩
  · intro kv hm
    simp [builtinRates] at hm
    rcases hm with rfl | rfl | rfl | rfl | rfl | rfl <;> norm_num
  · intro kv hm
    simp [builtinRates] at hm
    rcases hm with rfl | rfl | rfl | rfl | rfl | rfl <;> norm_num
  · intro kv hm
    simp [builtinRates] at hm
    rcases hm with rfl | rfl | rfl <;> norm_num
  · intro kv hm
    simp [builtinRates] at hm
    rcases hm with rfl | rfl | rfl | rfl | rfl | rfl <;> norm_num
  · intro kv hm
    simp [builtinRates] at hm
    rcases hm with rfl | rfl | rfl | rfl <;> norm_num

/-- C5: checking one previously unchecked add-on key of the built-in table
adds exactly its (strictly positive) listed price to `addOnsTotal`, and
raises the rounded total by exactly that listed price. -/
theorem calculate_addon_monotonicity (i : CalcInputs) (a : String) (p : ℚ)
    (hmem : (a, p) ∈ builtinRates.addOnPrices)
    (hnc : i.checked a = false)
    (hv : validConfig builtinRates i = true) :
    (calculate builtinRates { i with checked := addKey a i.checked }).addOnsTotal
      = (calculate builtinRates i).addOnsTotal + p ∧
    0 < p ∧
    ∃ t t2 : ℤ, (calculate builtinRates i).total = some t ∧
      (calculate builtinRates { i with checked := addKey a i.checked }).total = some t2 ∧
      (t2 : ℚ) = (t : ℚ) + p := by
  obtain ⟨b, bt, sv, fr, hb, hbt, hsv, hfr⟩ := validConfig_elim _ _ hv
  rw [calculate_eq builtinRates i b bt sv fr hb hbt hsv hfr,
    calculate_eq builtinRates { i with checked := addKey a i.checked } b bt sv fr
      hb hbt hsv hfr]
  dsimp only
  have hkey : ((builtinRates.addOnPrices.filter (fun kv => kv.1 == a)).map
      Prod.snd).sum = p ∧ 0 < p := by
    simp [builtinRates] at hmem
    rcases hmem with ⟨rfl, rfl⟩ | ⟨rfl, rfl⟩ | ⟨rfl, rfl⟩ | ⟨rfl, rfl⟩ |
      ⟨rfl, rfl⟩ | ⟨rfl, rfl⟩ <;>
      exact ⟨by simp [builtinRates], by norm_num⟩
  have hA : addOnsTotalOf builtinRates.addOnPrices (addKey a i.checked)
      = addOnsTotalOf builtinRates.addOnPrices i.checked + p := by
    rw [addOnsTotalOf_addKey _ _ _ hnc, hkey.1]
  obtain ⟨z, hz0⟩ := builtin_addOnPrices_int _ hmem
  have hz : p = (z : ℚ) := hz0
  refine ⟨hA, hkey.2, mathRound (b + bt + sv
      + addOnsTotalOf builtinRates.addOnPrices i.checked - (b + bt + sv) * fr),
    mathRound (b + bt + sv
      + addOnsTotalOf builtinRates.addOnPrices i.checked - (b + bt + sv) * fr) + z,
    rfl, ?_, ?_⟩
  · have heq : b + bt + sv + addOnsTotalOf builtinRates.addOnPrices (addKey a i.checked)
        - (b + bt + sv) * fr
        = (b + bt + sv + addOnsTotalOf builtinRates.addOnPrices i.checked
            - (b + bt + sv) * fr) + (z : ℚ) := by
      rw [hA, hz]
      ring
    rw [heq, mathRound_add_int]
  · push_cast
    rw [← hz]


/-- Witness for C5: adding the `"laundry"` add-on to scenario B raises the
add-on subtotal and the total by exactly 25. -/
theorem calculate_addon_monotonicity_witness :
    ((calculate builtinRates { scenarioB with
        checked := addKey "laundry" scenarioB.checked }).addOnsTotal
      = (calculate builtinRates scenarioB).addOnsTotal + 25 ∧
    (0 : ℚ) < 25 ∧
    ∃ t t2 : ℤ, (calculate builtinRates scenarioB).total = some t ∧
      (calculate builtinRates { scenarioB with
        checked := addKey "laundry" scenarioB.checked }).total = some t2 ∧
      (t2 : ℚ) = (t : ℚ) + 25) :=
  calculate_addon_monotonicity scenarioB "laundry" 25 (by simp [builtinRates])
    rfl rfl

/-- C10: because the displayed discount is rounded independently of the
displayed total, the itemized components `basePrice + serviceAdjustment +
addOnsTotal - discountDisplay` of a valid configuration may differ from the
displayed total, but never by more than 1. -/
theorem calculate_components_near_total (i : CalcInputs)
    (hv : validConfig builtinRates i = true) :
    ∃ (b sv : ℚ) (dd t : ℤ),
      (calculate builtinRates i).basePrice = some b ∧
      (calculate builtinRates i).serviceAdjustment = some sv ∧
      (calculate builtinRates i).discountDisplay = some dd ∧
      (calculate builtinRates i).total = some t ∧
      |b + sv + (calculate builtinRates i).addOnsTotal - (dd : ℚ) - (t : ℚ)| ≤ 1 := by
  obtain ⟨b, bt, sv, fr, hb, hbt, hsv, hfr⟩ := validConfig_elim _ _ hv
  rw [calculate_eq builtinRates i b bt sv fr hb hbt hsv hfr]
  dsimp only
  refine ⟨b + bt, sv, _, _, rfl, rfl, rfl, rfl, ?_⟩
  obtain ⟨zb, hzb0⟩ := builtin_basePrices_int _ (lookup_mem hb)
  obtain ⟨zbt, hzbt0⟩ := builtin_bathroomPrices_int _ (lookup_mem hbt)
  obtain ⟨zsv, hzsv0⟩ := builtin_serviceAdjustments_int _ (lookup_mem hsv)
  obtain ⟨zA, hzA⟩ := addOnsTotalOf_int builtinRates.addOnPrices i.checked
    builtin_addOnPrices_int
  have hzb : b = (zb : ℚ) := hzb0
  have hzbt : bt = (zbt : ℚ) := hzbt0
  have hzsv : sv = (zsv : ℚ) := hzsv0
  have hn : b + bt + sv + addOnsTotalOf builtinRates.addOnPrices i.checked
      = ((zb + zbt + zsv + zA : ℤ) : ℚ) := by
    rw [hzb, hzbt, hzsv, hzA]
    push_cast
    ring
  rw [hn, mathRound_intCast_sub]
  rcases mathRound_add_mathRound_neg ((b + bt + sv) * fr) with hk | hk <;>
    · have hkq : ((mathRound ((b + bt + sv) * fr) : ℚ))
          + ((mathRound (-((b + bt + sv) * fr)) : ℚ))
          = ((mathRound ((b + bt + sv) * fr) + mathRound (-((b + bt + sv) * fr)) : ℤ) : ℚ) := by
        push_cast
        ring
      rw [abs_le]
      rw [hk] at hkq
      push_cast at hkq ⊢
      constructor <;> linarith

/-- Witness for C10: the component identity holds within 1 at scenario B. -/
theorem calculate_components_near_total_witness :
    validConfig builtinRates scenarioB = true ∧
    ∃ (b sv : ℚ) (dd t : ℤ),
      (calculate builtinRates scenarioB).basePrice = some b ∧
      (calculate builtinRates scenarioB).serviceAdjustment = some sv ∧
      (calculate builtinRates scenarioB).discountDisplay = some dd ∧
      (calculate builtinRates scenarioB).total = some t ∧
      |b + sv + (calculate builtinRates scenarioB).addOnsTotal - (dd : ℚ) - (t : ℚ)| ≤ 1 :=
  ⟨rfl, calculate_components_near_total scenarioB rfl⟩
